import Mathlib

/-!
Shallow embedding of the Titan Depot indexing agent (titandepot/titan-indexing-agent).

The repository contains three near-duplicate pipeline variants:
* variant A: the first program in `src/index.js` (IndexNow provider);
* variant B: the second program in `src/index.js` (IndexNow provider, sloppier
  error handling: no delete suppression in the URL resolver, no optional
  chaining, no credential presence check, no inner try/catch around the
  secondary provider);
* variant C: `src/unnamed/part_000` (Bing provider, the most defensive variant:
  guarded verifier, inner try/catch around the secondary provider call).

JavaScript exceptions are modelled with `Except String`; external network
calls and `JSON.parse` are modelled as oracle parameters of type
`Except String _` (the result the call would have produced when invoked).
-/

/-- Truthiness of a JS value that is either a string or null/undefined:
`none` (null/undefined) and the empty string are falsy. -/
def jsTruthy : Option String → Bool
  | none => false
  | some s => s != ""

/-- JS `x || d` on a string-or-absent value: the default replaces both
null/undefined and the empty string. -/
def jsOr (o : Option String) (d : String) : String :=
  match o with
  | none => d
  | some s => if s = "" then d else s

/-- Rendering of a possibly-undefined string inside a JS template literal:
`undefined` prints as the literal text "undefined". -/
def jsTemplate : Option String → String
  | none => "undefined"
  | some s => s

/-- Check that the first character list starts with the second one
(subject first, pattern second). -/
def charsStartWith : List Char → List Char → Bool
  | _, [] => true
  | [], _ :: _ => false
  | a :: as, b :: bs => (a == b) && charsStartWith as bs

/-- JS `String.prototype.startsWith`, over the character lists of the two
strings so that it evaluates by kernel reduction. -/
def strStartsWith (s p : String) : Bool :=
  charsStartWith s.data p.data

/-- JS `String.prototype.endsWith`, over the character lists of the two
strings so that it evaluates by kernel reduction. -/
def strEndsWith (s p : String) : Bool :=
  charsStartWith s.data.reverse p.data.reverse

/-- Nested `blog` record of a Shopify payload; only `handle` is consulted. -/
structure Blog where
  handle : Option String
deriving DecidableEq, Repr

/-- Parsed webhook payload; only `handle` and `blog.handle` are consulted.
`none` fields model absent/undefined fields. A whole-payload `none`
(in `Option Payload`) models JSON `null`. -/
structure Payload where
  handle : Option String
  blog : Option Blog
deriving DecidableEq, Repr

/-- Site host base, `getHostBase()` in part_000 and the `host` constant in
both `src/index.js` variants. -/
def hostBase : String := "https://titandepot.co.uk"

/-- Model of `crypto.timingSafeEqual` from Node on the UTF-8 buffers of two strings:
throws a `RangeError` when the byte lengths differ, otherwise compares. -/
def timingSafeEqual (a b : String) : Except String Bool :=
  if a.utf8ByteSize = b.utf8ByteSize then Except.ok (a == b)
  else Except.error "RangeError: input buffers must have the same byte length"

/-- Variant A/B `verifyShopifyHmac` (`src/index.js` lines 30-38 and 187-195,
identical in both): returns false on a falsy header, but calls
`crypto.createHmac` with the raw secret (throws a `TypeError` when the
`SHOPIFY_WEBHOOK_SECRET` env var is undefined) and calls `timingSafeEqual`
unguarded (throws a `RangeError` when the byte lengths differ).
`hmacFn secret body` abstracts the base64 HMAC-SHA256 digest. -/
def verifyShopifyHmacA (hmacFn : String → String → String)
    (secret : Option String) (body : String) (header : Option String) :
    Except String Bool :=
  if !jsTruthy header then Except.ok false
  else
    match secret with
    | none => Except.error "TypeError: ERR_INVALID_ARG_TYPE"
    | some sec => timingSafeEqual (hmacFn sec body) (jsOr header "")

/-- Variant C `verifyShopifyHmac` (part_000 lines 43-54): returns false when
the header or the secret is falsy, and wraps `timingSafeEqual` in
try/catch, returning false on any throw. -/
def verifyShopifyHmacC (hmacFn : String → String → String)
    (secret : Option String) (body : String) (header : Option String) :
    Except String Bool :=
  if !jsTruthy header || !jsTruthy secret then Except.ok false
  else
    match timingSafeEqual (hmacFn (jsOr secret "") body) (jsOr header "") with
    | Except.ok b => Except.ok b
    | Except.error _ => Except.ok false

/-- Variant A/C `buildPublicUrl` (`src/index.js` lines 41-58 and part_000
lines 56-77, identical code): suppresses deletions, optional-chains every
payload access, and falls back to blog handle "news". -/
def buildPublicUrl (topic : String) (payload : Option Payload) : Option String :=
  let host := hostBase
  let isDelete := strEndsWith topic "delete"
  if strStartsWith topic "products/" then
    if isDelete then none
    else
      match payload.bind Payload.handle with
      | some h => if h = "" then none else some (host ++ "/products/" ++ h)
      | none => none
  else if strStartsWith topic "collections/" then
    if isDelete then none
    else
      match payload.bind Payload.handle with
      | some h => if h = "" then none else some (host ++ "/collections/" ++ h)
      | none => none
  else if strStartsWith topic "articles/" then
    if isDelete then none
    else
      let blogHandle := jsOr ((payload.bind Payload.blog).bind Blog.handle) "news"
      match payload.bind Payload.handle with
      | some h => if h = "" then none else some (host ++ "/blogs/" ++ blogHandle ++ "/" ++ h)
      | none => none
  else none

/-- Variant B `buildPublicUrl` (`src/index.js` lines 198-207): no deletion
check, unguarded `payload.handle` access (throws a `TypeError` on a null
payload), and an undefined handle is interpolated as the literal text
"undefined". -/
def buildPublicUrlB (topic : String) (payload : Option Payload) :
    Except String (Option String) :=
  let host := hostBase
  if strStartsWith topic "products/" then
    match payload with
    | none => Except.error "TypeError: cannot read properties of null"
    | some p => Except.ok (some (host ++ "/products/" ++ jsTemplate p.handle))
  else if strStartsWith topic "collections/" then
    match payload with
    | none => Except.error "TypeError: cannot read properties of null"
    | some p => Except.ok (some (host ++ "/collections/" ++ jsTemplate p.handle))
  else if strStartsWith topic "articles/" then
    match payload with
    | none => Except.error "TypeError: cannot read properties of null"
    | some p =>
      let blogHandle := jsOr (p.blog.bind Blog.handle) "news"
      Except.ok (some (host ++ "/blogs/" ++ blogHandle ++ "/" ++ jsTemplate p.handle))
  else Except.ok none

/-- Service-account credential record parsed from `GOOGLE_CREDENTIALS_JSON`;
only `client_email` and `private_key` are consulted. -/
structure GoogleCreds where
  client_email : Option String
  private_key : Option String
deriving DecidableEq, Repr

/-- Normalization of the private key performed by variant A and part_000:
`(creds.private_key || "").replace(/\\n/g, "\n")`, turning literal
backslash-n sequences into real newlines. -/
def normalizePrivateKey (k : Option String) : String :=
  (jsOr k "").replace "\\n" "\n"

/-- Variant A/C `submitSitemapToGSC` (`src/index.js` lines 82-104 and
part_000 lines 114-140): when the `GOOGLE_CREDENTIALS_JSON` env var is
falsy the function logs a warning and returns without doing anything;
otherwise it parses the credential (`credsParse` abstracts `JSON.parse`)
and performs the authorize-and-submit network calls (`net`, applied to the
client email and the normalized private key). -/
def submitSitemapToGSC_A (credsJson : Option String)
    (credsParse : String → Except String GoogleCreds)
    (net : Option String → String → Except String Unit) : Except String Unit :=
  if !jsTruthy credsJson then Except.ok ()
  else
    match credsParse (jsOr credsJson "") with
    | Except.error e => Except.error e
    | Except.ok c => net c.client_email (normalizePrivateKey c.private_key)

/-- Variant B `submitSitemapToGSC` (`src/index.js` lines 230-246): no
presence check: `JSON.parse(GOOGLE_CREDENTIALS_JSON)` is called directly,
so an undefined env var is stringified to the text "undefined" and handed
to `JSON.parse`, and the raw (unnormalized) private key is used. -/
def submitSitemapToGSC_B (credsJson : Option String)
    (credsParse : String → Except String GoogleCreds)
    (net : Option String → Option String → Except String Unit) : Except String Unit :=
  match credsParse (match credsJson with | none => "undefined" | some j => j) with
  | Except.error e => Except.error e
  | Except.ok c => net c.client_email c.private_key

/-- Observable external call made by the pipeline: an instant-submit
(IndexNow/Bing) batch with its URL list, or a GSC sitemap submission. -/
inductive Call where
  | indexNow (urls : List String) : Call
  | gsc : Call
deriving DecidableEq, Repr

/-- HTTP response together with the trace of provider calls the handler
made while producing it. -/
structure WebhookResult where
  status : Nat
  body : String
  calls : List Call
deriving DecidableEq, Repr

/-- Batch construction shared by all three webhook handlers (`src/index.js`
lines 115-119 and 256-260, part_000 lines 156-159): push the resolved URL
when truthy, then always push the site root and the all-items listing. -/
def webhookUrls (url : Option String) : List String :=
  (if jsTruthy url then [jsOr url ""] else [])
    ++ [hostBase ++ "/", hostBase ++ "/collections/all"]

/-- Webhook topic gate for the secondary provider, identical in the three
variants: `topic.endsWith("create") || topic.startsWith("collections/")`. -/
def gscTopicGate (topic : String) : Bool :=
  strEndsWith topic "create" || strStartsWith topic "collections/"

/-- Variant A webhook handler (`src/index.js` lines 108-132). Arguments are
the results the called operations would produce: `verifyRes` the verifier
result (a throw is caught by the outer try/catch), `topicHeader` the
x-shopify-topic header, `parseRes` the `JSON.parse` of the raw body,
`primaryRes` the IndexNow submission result, `secondaryRes` the GSC
submission result. The secondary call sits inside the same try/catch as
everything else, so its throw produces the 500 response. -/
def handleWebhookA (verifyRes : Except String Bool) (topicHeader : Option String)
    (parseRes : Except String (Option Payload))
    (primaryRes secondaryRes : Except String Unit) : WebhookResult :=
  match verifyRes with
  | Except.error _ => ⟨500, "ERROR", []⟩
  | Except.ok false => ⟨401, "Invalid HMAC", []⟩
  | Except.ok true =>
    match parseRes with
    | Except.error _ => ⟨500, "ERROR", []⟩
    | Except.ok payload =>
      let topic := jsOr topicHeader ""
      let urls := webhookUrls (buildPublicUrl topic payload)
      match primaryRes with
      | Except.error _ => ⟨500, "ERROR", [Call.indexNow urls]⟩
      | Except.ok _ =>
        if gscTopicGate topic then
          match secondaryRes with
          | Except.error _ => ⟨500, "ERROR", [Call.indexNow urls, Call.gsc]⟩
          | Except.ok _ => ⟨200, "OK", [Call.indexNow urls, Call.gsc]⟩
        else ⟨200, "OK", [Call.indexNow urls]⟩

/-- Variant B webhook handler (`src/index.js` lines 249-273): same shape as
variant A, but the URL resolver itself can throw (caught by the outer
try/catch, yielding the 500 response). -/
def handleWebhookB (verifyRes : Except String Bool) (topicHeader : Option String)
    (parseRes : Except String (Option Payload))
    (primaryRes secondaryRes : Except String Unit) : WebhookResult :=
  match verifyRes with
  | Except.error _ => ⟨500, "ERROR", []⟩
  | Except.ok false => ⟨401, "Invalid HMAC", []⟩
  | Except.ok true =>
    match parseRes with
    | Except.error _ => ⟨500, "ERROR", []⟩
    | Except.ok payload =>
      let topic := jsOr topicHeader ""
      match buildPublicUrlB topic payload with
      | Except.error _ => ⟨500, "ERROR", []⟩
      | Except.ok url =>
        let urls := webhookUrls url
        match primaryRes with
        | Except.error _ => ⟨500, "ERROR", [Call.indexNow urls]⟩
        | Except.ok _ =>
          if gscTopicGate topic then
            match secondaryRes with
            | Except.error _ => ⟨500, "ERROR", [Call.indexNow urls, Call.gsc]⟩
            | Except.ok _ => ⟨200, "OK", [Call.indexNow urls, Call.gsc]⟩
          else ⟨200, "OK", [Call.indexNow urls]⟩

/-- Variant C webhook handler (part_000 lines 145-177): the secondary GSC
call is wrapped in its own try/catch that only logs a warning, so
`secondaryRes` never influences the response. -/
def handleWebhookC (verifyRes : Except String Bool) (topicHeader : Option String)
    (parseRes : Except String (Option Payload))
    (primaryRes _secondaryRes : Except String Unit) : WebhookResult :=
  match verifyRes with
  | Except.error _ => ⟨500, "ERROR", []⟩
  | Except.ok false => ⟨401, "Invalid HMAC", []⟩
  | Except.ok true =>
    match parseRes with
    | Except.error _ => ⟨500, "ERROR", []⟩
    | Except.ok payload =>
      let topic := jsOr topicHeader ""
      let urls := webhookUrls (buildPublicUrl topic payload)
      match primaryRes with
      | Except.error _ => ⟨500, "ERROR", [Call.indexNow urls]⟩
      | Except.ok _ =>
        if gscTopicGate topic then ⟨200, "OK", [Call.indexNow urls, Call.gsc]⟩
        else ⟨200, "OK", [Call.indexNow urls]⟩

/-- Static two-URL batch submitted by the daily cron job in all three
variants: site root and sitemap URL. -/
def heartbeatUrls : List String :=
  [hostBase ++ "/", hostBase ++ "/sitemap.xml"]

/-- Daily cron job body, identical in the three variants (`src/index.js`
lines 135-152 and 276-293, part_000 lines 180-197): submit the static
batch to the instant-submit provider, then submit the sitemap to GSC, with
one try/catch around both that logs and swallows any failure. Returns the
outcome of the job (always `ok` because of the catch) and the trace of provider
calls that were reached. -/
def heartbeatRun (primaryRes secondaryRes : Except String Unit) :
    Except String Unit × List Call :=
  match primaryRes with
  | Except.error _ => (Except.ok (), [Call.indexNow heartbeatUrls])
  | Except.ok _ =>
    match secondaryRes with
    | Except.error _ => (Except.ok (), [Call.indexNow heartbeatUrls, Call.gsc])
    | Except.ok _ => (Except.ok (), [Call.indexNow heartbeatUrls, Call.gsc])

/-- Appending to a nonempty string yields a nonempty string. -/
theorem str_append_ne_empty_left (a b : String) (ha : a ≠ "") : a ++ b ≠ "" := by
  intro h
  apply ha
  have hd : a.data ++ b.data = ([] : List Char) := by
    have h2 := congrArg String.data h
    rwa [String.data_append] at h2
  have ha2 : a.data = [] := (List.append_eq_nil.mp hd).1
  cases a with
  | mk d =>
    have hd2 : d = [] := ha2
    rw [hd2]

/-- Prepending to a nonempty string yields a nonempty string. -/
theorem str_append_ne_empty_right (a b : String) (hb : b ≠ "") : a ++ b ≠ "" := by
  intro h
  apply hb
  have hd : a.data ++ b.data = ([] : List Char) := by
    have h2 := congrArg String.data h
    rwa [String.data_append] at h2
  have hb2 : b.data = [] := (List.append_eq_nil.mp hd).2
  cases b with
  | mk d =>
    have hd2 : d = [] := hb2
    rw [hd2]

/-- The variant A/C resolver never returns the empty string: every URL it
builds starts with the host base. -/
theorem buildPublicUrl_ne_some_empty (t : String) (p : Option Payload) :
    buildPublicUrl t p ≠ some "" := by
  unfold buildPublicUrl
  rcases hb : p.bind Payload.handle with _ | h
  · by_cases h1 : strStartsWith t "products/" = true <;>
      by_cases h2 : strStartsWith t "collections/" = true <;>
        by_cases h3 : strStartsWith t "articles/" = true <;>
          by_cases hd : strEndsWith t "delete" = true <;>
            simp [h1, h2, h3, hd, hb]
  · by_cases h1 : strStartsWith t "products/" = true <;>
      by_cases h2 : strStartsWith t "collections/" = true <;>
        by_cases h3 : strStartsWith t "articles/" = true <;>
          by_cases hd : strEndsWith t "delete" = true <;>
            simp [h1, h2, h3, hd, hb] <;>
      (intro hne heq
       exact str_append_ne_empty_right _ h hne heq)

/-- Claim C2 counterexample: the `src/index.js` signature verifier throws instead
of returning false, both when the secret is unconfigured while a signature
header is present (the `crypto.createHmac` call throws a TypeError) and
when the byte lengths of the computed digest and the provided signature
differ (the unguarded `timingSafeEqual` call throws a RangeError). -/
theorem verifyShopifyHmacA_throws :
    verifyShopifyHmacA (fun _ b => b) none "body" (some "sig")
      = Except.error "TypeError: ERR_INVALID_ARG_TYPE"
    ∧ verifyShopifyHmacA (fun _ _ => "aa") (some "secret") "body" (some "b")
      = Except.error "RangeError: input buffers must have the same byte length" :=
  ⟨rfl, rfl⟩

/-- Claim C2 (amended): the part_000 verifier always returns a boolean and never
throws: it returns `ok` of exactly (header truthy and secret truthy and
digest equal to the provided signature); in particular it returns false
when the header is absent, when the secret is unconfigured, and when the
byte lengths differ (unequal lengths imply unequal strings). The
`src/index.js` verifier still returns false (without throwing) when the
header is absent. -/
theorem verifyShopifyHmac_behaviour :
    (∀ (hmacFn : String → String → String) (secret : Option String)
        (body : String) (header : Option String),
      verifyShopifyHmacC hmacFn secret body header
        = Except.ok ((jsTruthy header && jsTruthy secret)
            && (hmacFn (jsOr secret "") body == jsOr header "")))
    ∧ (∀ (hmacFn : String → String → String) (secret : Option String)
        (body : String),
      verifyShopifyHmacA hmacFn secret body none = Except.ok false) := by
  constructor
  · intro hmacFn secret body header
    unfold verifyShopifyHmacC timingSafeEqual
    cases h1 : jsTruthy header <;> cases h2 : jsTruthy secret <;> simp [h1, h2]
    by_cases hsz : (hmacFn (jsOr secret "") body).utf8ByteSize
        = (jsOr header "").utf8ByteSize
    · simp [hsz]
    · have hbe : (hmacFn (jsOr secret "") body == jsOr header "") = false := by
        apply beq_eq_false_iff_ne.mpr
        intro he
        exact hsz (he ▸ rfl)
      simp [hsz, hbe]
  · intro hmacFn secret body
    rfl

/-- Claim C3 counterexample: the second `src/index.js` resolver does not suppress
deletions: resolving topic "products/delete" with payload
handle "widget" returns a product URL, not none. -/
theorem buildPublicUrlB_delete_url :
    buildPublicUrlB "products/delete" (some ⟨some "widget", none⟩)
        = Except.ok (some (hostBase ++ "/products/widget"))
    ∧ buildPublicUrlB "products/delete" (some ⟨some "widget", none⟩)
        ≠ Except.ok none := by
  constructor
  · rfl
  · intro h
    have h2 : Except.ok (some (hostBase ++ "/products/widget"))
        = (Except.ok none : Except String (Option String)) := h
    simp at h2

/-- Claim C3 (amended): the first `src/index.js` resolver and the part_000
resolver return none for every topic that ends with the deletion marker
"delete", whatever the payload; the second `src/index.js` resolver does
not suppress deletions. -/
theorem buildPublicUrl_delete_none (t : String) (p : Option Payload)
    (h : strEndsWith t "delete" = true) : buildPublicUrl t p = none := by
  unfold buildPublicUrl
  simp [h]

/-- Claim C3 witness: the amended theorem at topic "products/delete" with a
payload carrying handle "widget". -/
theorem buildPublicUrl_delete_none_witness :
    strEndsWith "products/delete" "delete" = true
    ∧ buildPublicUrl "products/delete" (some ⟨some "widget", none⟩) = none :=
  ⟨rfl, buildPublicUrl_delete_none "products/delete" (some ⟨some "widget", none⟩) rfl⟩

/-- Claim C4 counterexample: the second `src/index.js` resolver is not total: it
throws a TypeError on a null payload in a matched branch, and a missing
handle yields a URL containing the literal segment "undefined" rather
than none. -/
theorem buildPublicUrlB_not_total :
    buildPublicUrlB "products/create" none
        = Except.error "TypeError: cannot read properties of null"
    ∧ buildPublicUrlB "products/update" (some ⟨none, none⟩)
        = Except.ok (some (hostBase ++ "/products/undefined")) :=
  ⟨rfl, rfl⟩

/-- Claim C4 (amended): the first `src/index.js` resolver and the part_000
resolver are pure total functions: whenever the payload carries no truthy
handle (absent payload, absent handle, or empty-string handle), the result
is none for every topic — no exception and no undefined segment; the
second `src/index.js` resolver lacks this property. -/
theorem buildPublicUrl_missing_handle_none (t : String) (p : Option Payload)
    (h : jsTruthy (p.bind Payload.handle) = false) :
    buildPublicUrl t p = none := by
  unfold buildPublicUrl
  rcases hb : p.bind Payload.handle with _ | s
  · simp [hb]
  · have hs : s = "" := by
      rw [hb] at h
      simpa [jsTruthy] using h
    simp [hb, hs]

/-- Claim C4 witness: the amended theorem at topic "products/create" with a
payload whose handle field is absent. -/
theorem buildPublicUrl_missing_handle_none_witness :
    jsTruthy ((some (Payload.mk none none)).bind Payload.handle) = false
    ∧ buildPublicUrl "products/create" (some (Payload.mk none none)) = none :=
  ⟨rfl, buildPublicUrl_missing_handle_none "products/create" (some (Payload.mk none none)) rfl⟩

/-- Claim C5 counterexample: the second `src/index.js` sitemap submitter performs
no credential presence check: with `GOOGLE_CREDENTIALS_JSON` absent it
stringifies the undefined value and hands the text "undefined" to
`JSON.parse`, which throws a SyntaxError, so the invocation fails instead
of being a no-op success. -/
theorem submitSitemapToGSC_B_throws_without_creds :
    submitSitemapToGSC_B none (fun _ => Except.error "SyntaxError: unexpected token u")
        (fun _ _ => Except.ok ())
      = Except.error "SyntaxError: unexpected token u" :=
  rfl

/-- Claim C5 (amended): the first `src/index.js` sitemap submitter and the
part_000 one short-circuit to a no-op success when the credential env var
is absent (or empty), for every parse function and every network
behaviour; the second `src/index.js` submitter instead throws. -/
theorem submitSitemapToGSC_A_noop_without_creds :
    ∀ (credsParse : String → Except String GoogleCreds)
      (net : Option String → String → Except String Unit),
      submitSitemapToGSC_A none credsParse net = Except.ok ()
      ∧ submitSitemapToGSC_A (some "") credsParse net = Except.ok () :=
  fun _ _ => ⟨rfl, rfl⟩

/-- Claim C1 counterexample: in the first `src/index.js` variant, an event with a
valid signature, topic "products/create" and a parsed payload whose
primary IndexNow submission succeeds gets the 500 error response when the
secondary GSC submission throws — the same event answers 200 when the
secondary succeeds, so the secondary failure did change the outcome. -/
theorem handleWebhookA_secondary_failure_changes_outcome :
    (handleWebhookA (Except.ok true) (some "products/create")
        (Except.ok (some ⟨some "widget", none⟩))
        (Except.ok ()) (Except.error "GSC authorize failed")).status = 500
    ∧ (handleWebhookA (Except.ok true) (some "products/create")
        (Except.ok (some ⟨some "widget", none⟩))
        (Except.ok ()) (Except.ok ())).status = 200 :=
  ⟨rfl, rfl⟩

/-- Claim C1 (amended): in the part_000 variant the response of a verified,
parsed event whose primary submission succeeds is entirely independent of
the secondary GSC result and its status is the 200 success; in the
`src/index.js` variants a secondary failure instead yields the 500 error
outcome (shown by the counterexample). -/
theorem handleWebhookC_secondary_isolated (th : Option String)
    (p : Option Payload) (s s' : Except String Unit) :
    handleWebhookC (Except.ok true) th (Except.ok p) (Except.ok ()) s
      = handleWebhookC (Except.ok true) th (Except.ok p) (Except.ok ()) s'
    ∧ (handleWebhookC (Except.ok true) th (Except.ok p) (Except.ok ()) s).status
      = 200 := by
  constructor
  · rfl
  · unfold handleWebhookC
    dsimp only
    split <;> rfl

/-- Claim C6: for a verified event with a parsed payload whose primary submission
succeeds, the secondary GSC submission is invoked if and only if the topic
ends in "create" or starts with "collections/" — in both the part_000
handler and the `src/index.js` handler — and in particular it is never
invoked for topic "products/update". -/
theorem gsc_invoked_iff_topic_gate (th : Option String) (p : Option Payload)
    (s : Except String Unit) :
    (Call.gsc ∈ (handleWebhookC (Except.ok true) th (Except.ok p)
        (Except.ok ()) s).calls
      ↔ (strEndsWith (jsOr th "") "create"
          || strStartsWith (jsOr th "") "collections/") = true)
    ∧ (Call.gsc ∈ (handleWebhookA (Except.ok true) th (Except.ok p)
        (Except.ok ()) s).calls
      ↔ (strEndsWith (jsOr th "") "create"
          || strStartsWith (jsOr th "") "collections/") = true)
    ∧ Call.gsc ∉ (handleWebhookC (Except.ok true) (some "products/update")
        (Except.ok p) (Except.ok ()) s).calls := by
  have hgate : (strEndsWith (jsOr th "") "create"
      || strStartsWith (jsOr th "") "collections/") = gscTopicGate (jsOr th "") := rfl
  refine ⟨?_, ?_, ?_⟩
  · unfold handleWebhookC
    dsimp only
    rw [hgate]
    cases hg : gscTopicGate (jsOr th "") <;> simp [hg]
  · unfold handleWebhookA
    dsimp only
    rw [hgate]
    cases hg : gscTopicGate (jsOr th "") <;> cases s <;> simp [hg]
  · unfold handleWebhookC
    dsimp only
    have hg : gscTopicGate (jsOr (some "products/update") "") = false := rfl
    simp [hg]

/-- Claim C7 counterexample: when the IndexNow submission of the daily heartbeat
throws, control jumps to the catch block and the GSC sitemap submission is
not invoked at all — it is not invoked unconditionally. -/
theorem heartbeat_gsc_skipped_on_primary_failure :
    (heartbeatRun (Except.error "IndexNow 500") (Except.ok ())).2
        = [Call.indexNow heartbeatUrls]
    ∧ Call.gsc ∉ (heartbeatRun (Except.error "IndexNow 500") (Except.ok ())).2 := by
  refine ⟨rfl, ?_⟩
  intro h
  simp [heartbeatRun] at h

/-- Claim C7 (amended): on every firing of the daily heartbeat the GSC provider
is invoked exactly when the instant-submit call succeeded (a primary
failure skips it), and a failure of either provider call is caught by the
try/catch of the job and never propagates out of the task. -/
theorem heartbeatRun_catches_failures (p s : Except String Unit) :
    (heartbeatRun p s).1 = Except.ok ()
    ∧ (Call.gsc ∈ (heartbeatRun p s).2 ↔ p = Except.ok ()) := by
  cases p with
  | error e => simp [heartbeatRun]
  | ok u => cases s <;> simp [heartbeatRun]

/-- The batch equals the resolved URL (when present) prepended to the two
anchor URLs, provided the resolved URL is not the empty string. -/
theorem webhookUrls_eq_toList (o : Option String) (h : o ≠ some "") :
    webhookUrls o = o.toList ++ [hostBase ++ "/", hostBase ++ "/collections/all"] := by
  cases o with
  | none => rfl
  | some u =>
    have hu : u ≠ "" := fun he => h (he ▸ rfl)
    simp [webhookUrls, jsTruthy, jsOr, hu]

/-- Claim C8: for every verified event with a parsed payload, the batch handed to
the primary provider is exactly the resolved URL (when any) prepended to
the site root and the all-items listing URL; in particular both anchor
URLs are always members of the batch, also when resolution yields none. -/
theorem batch_contains_anchors (th : Option String) (p : Option Payload)
    (pr s : Except String Unit) :
    Call.indexNow (webhookUrls (buildPublicUrl (jsOr th "") p))
        ∈ (handleWebhookC (Except.ok true) th (Except.ok p) pr s).calls
    ∧ (hostBase ++ "/") ∈ webhookUrls (buildPublicUrl (jsOr th "") p)
    ∧ (hostBase ++ "/collections/all") ∈ webhookUrls (buildPublicUrl (jsOr th "") p)
    ∧ webhookUrls (buildPublicUrl (jsOr th "") p)
        = (buildPublicUrl (jsOr th "") p).toList
            ++ [hostBase ++ "/", hostBase ++ "/collections/all"] := by
  have hto := webhookUrls_eq_toList (buildPublicUrl (jsOr th "") p)
    (buildPublicUrl_ne_some_empty (jsOr th "") p)
  refine ⟨?_, ?_, ?_, hto⟩
  · unfold handleWebhookC
    dsimp only
    cases pr with
    | error e => simp
    | ok u => split <;> first | simp | (split <;> simp)
  · rw [hto]
    simp
  · rw [hto]
    simp

/-- Claim C9 counterexample: the orchestrator performs no deduplication: a
verified "collections/update" event whose payload handle is "all"
resolves to the all-items listing URL, which is then repeated by the
always-included anchor, so the submitted batch contains the same URL
twice. -/
theorem batch_duplicate_for_collection_all :
    (handleWebhookC (Except.ok true) (some "collections/update")
        (Except.ok (some ⟨some "all", none⟩)) (Except.ok ()) (Except.ok ())).calls
      = [Call.indexNow [hostBase ++ "/collections/all", hostBase ++ "/",
          hostBase ++ "/collections/all"], Call.gsc]
    ∧ ¬ ([hostBase ++ "/collections/all", hostBase ++ "/",
          hostBase ++ "/collections/all"] : List String).Nodup := by
  exact ⟨rfl, by decide⟩

/-- Claim C9 (amended): the batch consists of distinct URLs whenever the resolved
URL differs from the two anchor URLs; when the resolved URL coincides with
an anchor (for example a collection with handle "all"), it appears twice,
because no deduplication is performed. -/
theorem batch_nodup_when_resolved_differs (t : String) (p : Option Payload)
    (h1 : buildPublicUrl t p ≠ some (hostBase ++ "/"))
    (h2 : buildPublicUrl t p ≠ some (hostBase ++ "/collections/all")) :
    (webhookUrls (buildPublicUrl t p)).Nodup := by
  have hto := webhookUrls_eq_toList (buildPublicUrl t p)
    (buildPublicUrl_ne_some_empty t p)
  rw [hto]
  cases ho : buildPublicUrl t p with
  | none => decide
  | some u =>
    rw [ho] at h1 h2
    have hu1 : u ≠ hostBase ++ "/" := fun he => h1 (he ▸ rfl)
    have hu2 : u ≠ hostBase ++ "/collections/all" := fun he => h2 (he ▸ rfl)
    simp [hu1, hu2]
    decide

/-- Claim C9 witness: the amended theorem at a "products/create" event with
handle "widget", whose resolved URL differs from both anchors. -/
theorem batch_nodup_when_resolved_differs_witness :
    buildPublicUrl "products/create" (some ⟨some "widget", none⟩)
        ≠ some (hostBase ++ "/")
    ∧ buildPublicUrl "products/create" (some ⟨some "widget", none⟩)
        ≠ some (hostBase ++ "/collections/all")
    ∧ (webhookUrls (buildPublicUrl "products/create"
        (some ⟨some "widget", none⟩))).Nodup :=
  ⟨by decide, by decide,
    batch_nodup_when_resolved_differs "products/create"
      (some ⟨some "widget", none⟩) (by decide) (by decide)⟩

/-- Claim C10: a verified event with an absent topic header is processed with the
empty topic: no URL is resolved, the GSC submission is not invoked, and
when the primary submission succeeds the response is the 200 success with
a batch of exactly the two anchor URLs — in both the part_000 handler and
the `src/index.js` handler. -/
theorem absent_topic_header_defaults (p : Option Payload) (s : Except String Unit) :
    handleWebhookC (Except.ok true) none (Except.ok p) (Except.ok ()) s
        = ⟨200, "OK", [Call.indexNow [hostBase ++ "/", hostBase ++ "/collections/all"]]⟩
    ∧ handleWebhookA (Except.ok true) none (Except.ok p) (Except.ok ()) s
        = ⟨200, "OK", [Call.indexNow [hostBase ++ "/", hostBase ++ "/collections/all"]]⟩
    ∧ buildPublicUrl "" p = none :=
  ⟨rfl, rfl, rfl⟩
